import Mathlib

/-!
Verification development for the PKCE-style OAuth authorization-code flow of
`go/pkg/bertyprotocol/api_services_auth.go` (package bertyprotocol).

The Go code is embedded shallowly:
* machine bytes and 32-bit words are `Nat` with explicit `% 2^32` / `% 256`
  where overflow matters;
* the random nonce source (`cryptoutil.GenerateNonce`, outside the embedded
  file) is passed in as an `Option (List Nat)` argument: `some bytes` is a
  successful draw, `none` is an entropy failure;
* the process-wide session slot (`s.authSession`, an atomic cell) is passed in
  and returned explicitly as an `Option authSession`;
* the outbound HTTP exchange, the body read and the JSON decode are
  represented by an oracle argument describing what the transport would
  return, while the effect trace (`FlowEffects`) records which requests were
  actually issued and which tokens were handed to the metadata collaborator.
-/

/-! ## Bytes, 32-bit words and SHA-256 (Go `crypto/sha256.Sum256`) -/

/-- Addition of 32-bit words, reduced mod 2^32. -/
def add32 (a b : Nat) : Nat := (a + b) % 4294967296

/-- Right rotation of a 32-bit word by `n` bits. -/
def rotr32 (n x : Nat) : Nat := ((x >>> n) ||| ((x <<< (32 - n)) % 4294967296))

/-- FIPS 180-4 big sigma 0. -/
def bigSigma0 (x : Nat) : Nat := (rotr32 2 x) ^^^ (rotr32 13 x) ^^^ (rotr32 22 x)

/-- FIPS 180-4 big sigma 1. -/
def bigSigma1 (x : Nat) : Nat := (rotr32 6 x) ^^^ (rotr32 11 x) ^^^ (rotr32 25 x)

/-- FIPS 180-4 small sigma 0. -/
def smallSigma0 (x : Nat) : Nat := (rotr32 7 x) ^^^ (rotr32 18 x) ^^^ (x >>> 3)

/-- FIPS 180-4 small sigma 1. -/
def smallSigma1 (x : Nat) : Nat := (rotr32 17 x) ^^^ (rotr32 19 x) ^^^ (x >>> 10)

/-- The 64 SHA-256 round constants (FIPS 180-4, written in decimal). -/
def sha256K : List Nat :=
  [1116352408, 1899447441, 3049323471, 3921009573, 961987163,
   1508970993, 2453635748, 2870763221, 3624381080, 310598401,
   607225278, 1426881987, 1925078388, 2162078206, 2614888103,
   3248222580, 3835390401, 4022224774, 264347078, 604807628,
   770255983, 1249150122, 1555081692, 1996064986, 2554220882,
   2821834349, 2952996808, 3210313671, 3336571891, 3584528711,
   113926993, 338241895, 666307205, 773529912, 1294757372,
   1396182291, 1695183700, 1986661051, 2177026350, 2456956037,
   2730485921, 2820302411, 3259730800, 3345764771, 3516065817,
   3600352804, 4094571909, 275423344, 430227734, 506948616,
   659060556, 883997877, 958139571, 1322822218, 1537002063,
   1747873779, 1955562222, 2024104815, 2227730452, 2361852424,
   2428436474, 2756734187, 3204031479, 3329325298]

/-- The SHA-256 initial hash state (FIPS 180-4, written in decimal). -/
def sha256H0 : List Nat :=
  [1779033703, 3144134277, 1013904242, 2773480762, 1359893119,
   2600822924, 528734635, 1541459225]

/-- Big-endian packing of bytes into 32-bit words. -/
def bytesToWords : List Nat → List Nat
  | a :: b :: c :: d :: rest => ((a <<< 24) ||| (b <<< 16) ||| (c <<< 8) ||| d) :: bytesToWords rest
  | _ => []

/-- Big-endian unpacking of 32-bit words into bytes. -/
def wordsToBytes : List Nat → List Nat
  | [] => []
  | w :: ws => [(w >>> 24) % 256, (w >>> 16) % 256, (w >>> 8) % 256, w % 256] ++ wordsToBytes ws

/-- Extends a 16-word message block schedule by `n` further words. -/
def sha256extend (w : List Nat) : Nat → List Nat
  | 0 => w
  | n + 1 =>
    let t := w.length
    let s0 := smallSigma0 (w.getD (t - 15) 0)
    let s1 := smallSigma1 (w.getD (t - 2) 0)
    sha256extend (w ++ [add32 (add32 (w.getD (t - 16) 0) s0) (add32 (w.getD (t - 7) 0) s1)]) n

/-- One SHA-256 compression round: `wk` is the pair (scheduled word, round constant). -/
def sha256round (hs : List Nat) (wk : Nat × Nat) : List Nat :=
  match hs with
  | [a, b, c, d, e, f, g, h] =>
    let s1 := bigSigma1 e
    let ch := (e &&& f) ^^^ ((e ^^^ 4294967295) &&& g)
    let temp1 := add32 (add32 (add32 h s1) (add32 ch wk.2)) wk.1
    let s0 := bigSigma0 a
    let mj := (a &&& b) ^^^ (a &&& c) ^^^ (b &&& c)
    let temp2 := add32 s0 mj
    [add32 temp1 temp2, a, b, c, add32 d temp1, e, f, g]
  | other => other

/-- Compression of a single padded 64-byte block into the running hash state. -/
def sha256block (hs : List Nat) (block : List Nat) : List Nat :=
  let w := sha256extend (bytesToWords block) 48
  let res := (w.zip sha256K).foldl sha256round hs
  (hs.zip res).map (fun p => add32 p.1 p.2)

/-- Big-endian bytes (most significant first) of a value, `n` bytes wide. -/
def natToBytesBE : Nat → Nat → List Nat
  | 0, _ => []
  | n + 1, v => natToBytesBE n (v >>> 8) ++ [v % 256]

/-- SHA-256 message padding: a 0x80 byte, zeros to 56 mod 64, then the 64-bit
big-endian bit length. -/
def sha256pad (msg : List Nat) : List Nat :=
  let len := msg.length
  let k := (120 - (len + 1) % 64) % 64
  msg ++ [128] ++ List.replicate k 0 ++ natToBytesBE 8 (len * 8)

/-- Folds the padded message through the compression function one 64-byte
block at a time; the first argument is structural fuel (the padded length is
an upper bound on the number of blocks). -/
def sha256blocks : Nat → List Nat → List Nat → List Nat
  | 0, hs, _ => hs
  | _ + 1, hs, [] => hs
  | fuel + 1, hs, b :: bs => sha256blocks fuel (sha256block hs ((b :: bs).take 64)) ((b :: bs).drop 64)

/-- SHA-256 digest of a byte sequence, as in Go `sha256.Sum256`. -/
def sha256 (msg : List Nat) : List Nat :=
  let padded := sha256pad msg
  wordsToBytes (sha256blocks padded.length sha256H0 padded)

/-! ## Base64 (Go `base64.RawURLEncoding`) and UTF-8 string bytes -/

/-- The URL-safe base64 alphabet. -/
def base64URLAlphabet : List Char :=
  "ABCDEFGHIJKLMNOPQRSTUVWXYZabcdefghijklmnopqrstuvwxyz0123456789-_".toList

/-- Character of a 6-bit group. -/
def b64c (n : Nat) : Char := base64URLAlphabet.getD n 'A'

/-- Unpadded URL-safe base64 of a byte sequence (Go `base64.RawURLEncoding`). -/
def base64RawURLChars : List Nat → List Char
  | [] => []
  | [a] => [b64c (a >>> 2), b64c ((a % 4) <<< 4)]
  | [a, b] => [b64c (a >>> 2), b64c (((a % 4) <<< 4) ||| (b >>> 4)), b64c ((b % 16) <<< 2)]
  | a :: b :: c :: rest =>
    [b64c (a >>> 2), b64c (((a % 4) <<< 4) ||| (b >>> 4)),
     b64c (((b % 16) <<< 2) ||| (c >>> 6)), b64c (c % 64)] ++ base64RawURLChars rest

/-- `base64.RawURLEncoding.EncodeToString`. -/
def base64RawURLEncode (l : List Nat) : String := String.mk (base64RawURLChars l)

/-- UTF-8 bytes of one character. -/
def utf8BytesChar (c : Char) : List Nat :=
  let n := c.toNat
  if n < 128 then [n]
  else if n < 2048 then [192 ||| (n >>> 6), 128 ||| (n % 64)]
  else if n < 65536 then [224 ||| (n >>> 12), 128 ||| ((n >>> 6) % 64), 128 ||| (n % 64)]
  else [240 ||| (n >>> 18), 128 ||| ((n >>> 12) % 64), 128 ||| ((n >>> 6) % 64), 128 ||| (n % 64)]

/-- The byte sequence of a string, as Go obtains with a `[]byte(s)` conversion. -/
def strBytes (s : String) : List Nat := (s.data.map utf8BytesChar).flatten

/-! ## String and URL helpers (Go `strings` and `net/url`) -/

/-- Whether the first list is a prefix of the second (Go `strings.HasPrefix`
on the character level). -/
def charsStartWith : List Char → List Char → Bool
  | [], _ => true
  | _ :: _, [] => false
  | p :: ps, c :: cs => p == c && charsStartWith ps cs

/-- Go `strings.HasPrefix s pre`. -/
def strStartsWith (s pre : String) : Bool := charsStartWith pre.data s.data

/-- Go `strings.HasSuffix`. -/
def strEndsWith (s suf : String) : Bool :=
  suf.data.length ≤ s.data.length && s.data.drop (s.data.length - suf.data.length) == suf.data

/-- Go `strings.TrimSuffix`: removes one occurrence of a trailing suffix. -/
def trimSuffix (s suf : String) : String :=
  if strEndsWith s suf then String.mk (s.data.take (s.data.length - suf.data.length)) else s

/-- Splits a character list at the first occurrence of `c`: the part before
it, and (when found) the part after it. -/
def splitAtFirst (c : Char) : List Char → List Char × Option (List Char)
  | [] => ([], none)
  | x :: xs =>
    if x = c then ([], some xs)
    else
      let r := splitAtFirst c xs
      (x :: r.1, r.2)

/-- Scheme extraction as in Go `net/url`'s getScheme: the scheme runs up to
the first colon and consists of an ASCII letter followed by letters, digits,
`+`, `-` or `.`. Returns the scheme characters and the remainder, or `none`
when the string has no valid scheme prefix (including Go's
"missing protocol scheme" parse error, which the caller maps to the same
invalid-URL outcome as an empty scheme). -/
def getSchemeAux : List Char → List Char → Option (List Char × List Char)
  | _, [] => none
  | acc, c :: cs =>
    if c = ':' then (if acc.isEmpty then none else some (acc.reverse, cs))
    else if c.isAlpha then getSchemeAux (c :: acc) cs
    else if (c.isDigit || c = '+' || c = '-' || c = '.') && !acc.isEmpty then getSchemeAux (c :: acc) cs
    else none

/-- The part of an authority after the last `@` (Go keeps userinfo in
`url.User`; `url.Host` is what follows). -/
def afterLastAt (l : List Char) : List Char := (l.reverse.takeWhile (fun c => c ≠ '@')).reverse

/-- The two components of a parsed URL that the embedded code inspects. -/
structure GoURL where
  scheme : String
  host : String
deriving DecidableEq

/-- Modelled from Go `net/url.Parse`, restricted to the two fields the
embedded code reads: the scheme (lowercased by Go) and the host. The
fragment is cut at the first `#`, the query at the first `?`; the host is
the authority following `//`, up to the next `/`, with any userinfo before a
final `@` removed. Inputs on which the real parser errors (control bytes,
malformed escapes, missing scheme before a leading colon) are mapped to a
result the callers treat identically (an empty scheme or host, hence the
same invalid-URL outcome). -/
def goURLParse (s : String) : GoURL :=
  match getSchemeAux [] s.data with
  | none => ⟨"", ""⟩
  | some (sch, rest) =>
    let scheme := String.mk (sch.map Char.toLower)
    let rest1 := (splitAtFirst '#' rest).1
    let rest2 := (splitAtFirst '?' rest1).1
    match rest2 with
    | '/' :: '/' :: r => ⟨scheme, String.mk (afterLastAt ((splitAtFirst '/' r).1))⟩
    | _ => ⟨scheme, ""⟩

/-- Whether a byte must be percent-escaped in a query component
(Go `url.shouldEscape` with `encodeQueryComponent`): everything except
ASCII alphanumerics and the four marks dash, underscore, dot, tilde. -/
def shouldEscapeQuery (c : Nat) : Bool :=
  !((65 ≤ c && c ≤ 90) || (97 ≤ c && c ≤ 122) || (48 ≤ c && c ≤ 57) ||
    c == 45 || c == 95 || c == 46 || c == 126)

/-- Uppercase hexadecimal digit. -/
def hexDigitUpper (n : Nat) : Char := "0123456789ABCDEF".toList.getD n '0'

/-- Percent-escaping of query bytes, space becoming `+`. -/
def queryEscapeBytes : List Nat → List Char
  | [] => []
  | c :: rest =>
    (if c == 32 then ['+']
     else if shouldEscapeQuery c then ['%', hexDigitUpper (c >>> 4), hexDigitUpper (c % 16)]
     else [Char.ofNat c]) ++ queryEscapeBytes rest

/-- Go `url.QueryEscape`. -/
def queryEscape (s : String) : String := String.mk (queryEscapeBytes (strBytes s))

/-- Go `url.Values.Get` over a parsed query, the query being the key/value
pairs in order: the first value bound to the key, or `""` when the key is
absent. -/
def queryGet (query : List (String × String)) (key : String) : String :=
  match query.find? (fun kv => kv.1 == key) with
  | some kv => kv.2
  | none => ""

/-! ## Data model (api_services_auth.go and the protocoltypes messages it builds) -/

/-- The fixed flow constants of api_services_auth.go. -/
def AuthResponseType : String := "code"

/-- OAuth grant type sent in the exchange request. -/
def AuthGrantType : String := "authorization_code"

/-- The fixed redirect URI. -/
def AuthRedirect : String := "berty://services-auth/"

/-- The fixed OAuth client id. -/
def AuthClientID : String := "berty"

/-- The PKCE challenge method advertised in the authorization URL. -/
def AuthCodeChallengeMethod : String := "S256"

/-- Modelled from the spec: the fixed authorize path constant
(`AuthHTTPPathAuthorize`, declared elsewhere in the repository, outside
src/). No claim depends on its concrete value. -/
def AuthHTTPPathAuthorize : String := "/authorize"

/-- Modelled from the spec: the fixed token-exchange path constant
(`AuthHTTPPathTokenExchange`, declared elsewhere in the repository, outside
src/). No claim depends on its concrete value. -/
def AuthHTTPPathTokenExchange : String := "/oauth/token"

/-- Modelled from the spec: the well-known push service type
(`ServicePushID`, declared elsewhere in the repository, outside src/). -/
def ServicePushID : String := "push"

/-- The in-flight authorization session parked between flow start and the
callback. -/
structure authSession where
  state : String
  codeVerifier : String
  baseURL : String
deriving DecidableEq

/-- One advertised sub-service of an issued token
(`protocoltypes.ServiceTokenSupportedService`, fields from their use sites). -/
structure ServiceTokenSupportedService where
  serviceType : String
  serviceEndpoint : String
deriving DecidableEq

/-- The credential record handed to the metadata collaborator
(`protocoltypes.ServiceToken`, fields from their use sites). -/
structure ServiceToken where
  token : String
  authenticationURL : String
  supportedServices : List ServiceTokenSupportedService
  expiration : Int
deriving DecidableEq

/-- The decoded token-exchange response body
(`protocoltypes.AuthExchangeResponse`, fields from their use sites: a bearer
token, a service-type-to-endpoint mapping rendered as its iteration sequence,
and a server-reported error string). -/
structure AuthExchangeResponse where
  accessToken : String
  services : List (String × String)
  error : String
deriving DecidableEq

/-- The typed error outcomes of the embedded code (pkg errcode values, plus
the wrapped payloads the code attaches). -/
inductive AuthError where
  | invalidURL
  | notInitialized
  | wrongState
  | serverReported (code desc : String)
  | serverReportedExchange
  | streamWrite
  | streamRead
  | invalidResponseStatus (statusCode : Nat)
  | deserialization
  | invalidResponseMissingToken
  | invalidResponseNoServices
  | collaborator (msg : String)
  | randomSourceFailure
deriving DecidableEq

/-- What reading and decoding the exchange response body would yield. -/
inductive ExchangeBody where
  | readFailure
  | decodeFailure
  | parsed (r : AuthExchangeResponse)
deriving DecidableEq

/-- What the outbound token-exchange HTTP call would return. -/
inductive ExchangeHTTPResult where
  | transportFailure
  | response (statusCode : Nat) (body : ExchangeBody)
deriving DecidableEq

/-- The reply of AuthServiceInitFlow. -/
structure AuthServiceInitFlowReply where
  url : String
  secureURL : Bool
deriving DecidableEq

/-- Trace of the outward effects of one AuthServiceCompleteFlow call: the
token-exchange requests issued (endpoint and form values), the service
tokens handed to the metadata collaborator's SendAccountServiceTokenAdded,
and the push endpoints for which best-effort registration was attempted. -/
structure FlowEffects where
  httpRequests : List (String × List (String × String))
  appended : List ServiceToken
  pushAttempts : List String
deriving DecidableEq

/-! ## Operations -/

/-- Lines 36-44: the PKCE challenge is the unpadded URL-safe base64 of the
SHA-256 digest of the bytes of the (already base64-encoded) verifier string. -/
def authSessionCodeChallenge (codeVerifier : String) : String :=
  base64RawURLEncode (sha256 (strBytes codeVerifier))

/-- Lines 46-60: draws a nonce (`none` models a failing random source, whose
error is propagated), base64-encodes it into the verifier string and derives
the challenge from that string. -/
def authSessionCodeVerifierAndChallenge (nonce : Option (List Nat)) : Except AuthError (String × String) :=
  match nonce with
  | none => .error .randomSourceFailure
  | some bytes =>
    let verifier := base64RawURLEncode bytes
    .ok (verifier, authSessionCodeChallenge verifier)

/-- Lines 62-85: draws the state nonce, then the verifier/challenge pair, and
assembles the session; either random-source failure is propagated. -/
def newAuthSession (baseURL : String) (stateNonce verifierNonce : Option (List Nat)) :
    Except AuthError (authSession × String) :=
  match stateNonce with
  | none => .error .randomSourceFailure
  | some stateBytes =>
    match authSessionCodeVerifierAndChallenge verifierNonce with
    | .error e => .error e
    | .ok (verifier, challenge) =>
      .ok (⟨base64RawURLEncode stateBytes, verifier, baseURL⟩, challenge)

/-- The validation of lines 88-101: the three early returns (parse error,
scheme not http/https, empty host) all yield ErrServicesAuthInvalidURL, so
they are combined into one guard over the parsed URL. -/
def isValidAuthBaseURL (s : String) : Bool :=
  let p := goURLParse s
  (match p.scheme with
   | "http" => true
   | "https" => true
   | _ => false) && !(p.host == "")

/-- Line 112-121: the authorization URL assembled by fmt.Sprintf. -/
def authURLString (baseURL state codeChallenge : String) : String :=
  baseURL ++ AuthHTTPPathAuthorize ++ "?response_type=" ++ AuthResponseType ++
    "&client_id=" ++ AuthClientID ++ "&redirect_uri=" ++ queryEscape AuthRedirect ++
    "&state=" ++ state ++ "&code_challenge=" ++ codeChallenge ++
    "&code_challenge_method=" ++ AuthCodeChallengeMethod

/-- Lines 87-122: validates the base URL, trims one trailing slash, creates a
fresh session and stores it in the slot (`s.authSession.Store`), and builds
the authorization URL. The held slot is passed in and the possibly updated
slot is returned alongside the result. -/
def authInitURL (baseURL : String) (stateNonce verifierNonce : Option (List Nat))
    (held : Option authSession) : Except AuthError String × Option authSession :=
  if isValidAuthBaseURL baseURL then
    let baseURL' := trimSuffix baseURL "/"
    match newAuthSession baseURL' stateNonce verifierNonce with
    | .error e => (.error e, held)
    | .ok (auth, codeChallenge) =>
      (.ok (authURLString baseURL' auth.state codeChallenge), some auth)
  else (.error .invalidURL, held)

/-- Lines 245-255: wraps authInitURL and reports whether the URL string
starts with the literal "https://" (strings.HasPrefix). -/
def AuthServiceInitFlow (authURL : String) (stateNonce verifierNonce : Option (List Nat))
    (held : Option authSession) : Except AuthError AuthServiceInitFlowReply × Option authSession :=
  match authInitURL authURL stateNonce verifierNonce held with
  | (.error e, slot) => (.error e, slot)
  | (.ok u, slot) => (.ok ⟨u, strStartsWith u "https://"⟩, slot)

/-- The form values of the token-exchange POST (lines 151-156). -/
def exchangeForm (code codeVerifier : String) : List (String × String) :=
  [("grant_type", AuthGrantType), ("code", code),
   ("client_id", AuthClientID), ("code_verifier", codeVerifier)]

/-- Lines 124-243. The callback URL is represented by its parsed query
(net/url is outside src/; a parse failure of the callback URL is returned
unchanged upstream and not modelled). `held` is the session slot
(`s.authSession.Load`), `exchangeResult` is what the transport would answer
were the exchange POST issued, `appendError` is the outcome of the metadata
collaborator's SendAccountServiceTokenAdded, and `tokenID` stands for the
content-derived `ServiceToken.TokenID()` (defined outside src/). Besides
the reply, the trace of issued requests, handed-over tokens and attempted
push registrations is returned; the push registrations themselves (lines
210-238) are best-effort and only log on failure, so their outcomes do not
appear in the result. -/
def AuthServiceCompleteFlow (query : List (String × String)) (held : Option authSession)
    (exchangeResult : ExchangeHTTPResult) (appendError : Option String)
    (tokenID : ServiceToken → String) : Except AuthError String × FlowEffects :=
  if queryGet query "error" ≠ "" then
    (.error (.serverReported (queryGet query "error") (queryGet query "error_description")),
     ⟨[], [], []⟩)
  else
    let code := queryGet query "code"
    let state := queryGet query "state"
    match held with
    | none => (.error .notInitialized, ⟨[], [], []⟩)
    | some auth =>
      if auth.state ≠ state then (.error .wrongState, ⟨[], [], []⟩)
      else
        let endpoint := auth.baseURL ++ AuthHTTPPathTokenExchange
        let requests := [(endpoint, exchangeForm code auth.codeVerifier)]
        match exchangeResult with
        | .transportFailure => (.error .streamWrite, ⟨requests, [], []⟩)
        | .response statusCode body =>
          if 300 ≤ statusCode then
            (.error (.invalidResponseStatus statusCode), ⟨requests, [], []⟩)
          else
            match body with
            | .readFailure => (.error .streamRead, ⟨requests, [], []⟩)
            | .decodeFailure => (.error .deserialization, ⟨requests, [], []⟩)
            | .parsed resMsg =>
              if resMsg.error ≠ "" then (.error .serverReportedExchange, ⟨requests, [], []⟩)
              else if resMsg.accessToken = "" then
                (.error .invalidResponseMissingToken, ⟨requests, [], []⟩)
              else if resMsg.services.length = 0 then
                (.error .invalidResponseNoServices, ⟨requests, [], []⟩)
              else
                let services := resMsg.services.map
                  (fun kv => ServiceTokenSupportedService.mk kv.1 kv.2)
                let svcToken : ServiceToken := ⟨resMsg.accessToken, auth.baseURL, services, -1⟩
                match appendError with
                | some msg => (.error (.collaborator msg), ⟨requests, [svcToken], []⟩)
                | none =>
                  (.ok (tokenID svcToken),
                   ⟨requests, [svcToken],
                    (services.filter (fun sv => sv.serviceType == ServicePushID)).map
                      ServiceTokenSupportedService.serviceEndpoint⟩)

/-- Lines 274-297: the debug entry point builds a ServiceToken directly from
the caller-supplied access token, services mapping and authentication URL and
hands it to the metadata collaborator, with no validation of its own. The
handed-over tokens are returned as the second component. -/
def DebugAuthServiceSetToken (accessToken : String) (tokenServices : List (String × String))
    (authenticationURL : String) (appendError : Option String) :
    Except AuthError Unit × List ServiceToken :=
  let services := tokenServices.map (fun kv => ServiceTokenSupportedService.mk kv.1 kv.2)
  let svcToken : ServiceToken := ⟨accessToken, authenticationURL, services, -1⟩
  match appendError with
  | some msg => (.error (.collaborator msg), [svcToken])
  | none => (.ok (), [svcToken])


/-! ## Shared lemmas -/

/-- Test vector anchoring the hash and encoding embedding: the PKCE challenge
of the empty verifier string. -/
theorem sha256_base64_test_vector :
    base64RawURLEncode (sha256 (strBytes ""))
      = "47DEQpj8HBSa-_TImW-5JCeuQeRkm5NMpJWZG3hSuFU" := by decide

theorem string_data_append (a b : String) : (a ++ b).data = a.data ++ b.data := by
  cases a; cases b; rfl

theorem charsStartWith_append (l m : List Char) : charsStartWith l (l ++ m) = true := by
  induction l with
  | nil => rfl
  | cons c cs ih => simp [charsStartWith, ih]

/-! ## Claims -/

/-- C1: for every verifier string the code challenge emitted in the
authorization URL is the unpadded URL-safe base64 of the SHA-256 digest of
the bytes of the encoded verifier string itself (not of the pre-encoding
nonce: the stored verifier is the base64 encoding of the nonce, and the hash
is taken over that encoded string's bytes); recomputing the challenge from
the stored session's codeVerifier yields exactly the code_challenge slot of
the URL. -/
theorem authInitURL_challenge_consistent (baseURL : String) (ns nv : List Nat)
    (held : Option authSession) (hvalid : isValidAuthBaseURL baseURL = true) :
    ∃ url auth,
      authInitURL baseURL (some ns) (some nv) held = (.ok url, some auth)
      ∧ url = authURLString (trimSuffix baseURL "/") auth.state
          (authSessionCodeChallenge auth.codeVerifier)
      ∧ auth.codeVerifier = base64RawURLEncode nv
      ∧ authSessionCodeChallenge auth.codeVerifier
          = base64RawURLEncode (sha256 (strBytes auth.codeVerifier)) := by
  refine ⟨authURLString (trimSuffix baseURL "/") (base64RawURLEncode ns)
      (authSessionCodeChallenge (base64RawURLEncode nv)),
    ⟨base64RawURLEncode ns, base64RawURLEncode nv, trimSuffix baseURL "/"⟩, ?_, rfl, rfl, rfl⟩
  simp [authInitURL, newAuthSession, authSessionCodeVerifierAndChallenge, hvalid]

/-- Witness for C1 at a concrete base URL and concrete nonces. -/
theorem authInitURL_challenge_consistent_witness :
    isValidAuthBaseURL "https://auth.example.org" = true ∧
    (∃ url auth,
      authInitURL "https://auth.example.org" (some [0, 1, 2]) (some [3, 4, 5]) none
          = (.ok url, some auth)
      ∧ url = authURLString (trimSuffix "https://auth.example.org" "/") auth.state
          (authSessionCodeChallenge auth.codeVerifier)
      ∧ auth.codeVerifier = base64RawURLEncode [3, 4, 5]
      ∧ authSessionCodeChallenge auth.codeVerifier
          = base64RawURLEncode (sha256 (strBytes auth.codeVerifier))) :=
  ⟨by decide, authInitURL_challenge_consistent "https://auth.example.org" [0, 1, 2] [3, 4, 5] none (by decide)⟩

/-- C2: a callback whose query has no error parameter but whose state differs
from the held session's state fails with the wrong-state error, and the whole
effect trace is empty: in particular no token-exchange request is issued. -/
theorem completeFlow_wrongState (query : List (String × String)) (auth : authSession)
    (exchangeResult : ExchangeHTTPResult) (appendError : Option String)
    (tokenID : ServiceToken → String)
    (hnoerr : queryGet query "error" = "")
    (hstate : queryGet query "state" ≠ auth.state) :
    AuthServiceCompleteFlow query (some auth) exchangeResult appendError tokenID
      = (.error .wrongState, ⟨[], [], []⟩) := by
  simp only [AuthServiceCompleteFlow]
  rw [if_neg (fun hc => hc hnoerr), if_pos (fun h => hstate h.symm)]

/-- Witness for C2: mismatching state at a concrete query and session. -/
theorem completeFlow_wrongState_witness :
    AuthServiceCompleteFlow [("state", "other")] (some ⟨"s1", "v1", "https://b"⟩)
        .transportFailure none (fun _ => "")
      = (.error .wrongState, ⟨[], [], []⟩) :=
  completeFlow_wrongState _ _ _ _ _ (by decide) (by decide)

/-- C5: a callback whose query carries a non-empty error parameter fails with
the server-reported error carrying the code and the optional description, for
every value of the session slot and of the transport oracle alike (so the
session is not consulted, the state is not compared, and the effect trace is
empty: no exchange request). -/
theorem completeFlow_serverError_shortCircuit (query : List (String × String))
    (held : Option authSession) (exchangeResult : ExchangeHTTPResult)
    (appendError : Option String) (tokenID : ServiceToken → String)
    (herr : queryGet query "error" ≠ "") :
    AuthServiceCompleteFlow query held exchangeResult appendError tokenID
      = (.error (.serverReported (queryGet query "error") (queryGet query "error_description")),
         ⟨[], [], []⟩) := by
  simp only [AuthServiceCompleteFlow]
  rw [if_pos herr]

/-- Witness for C5: error=access_denied short-circuits even with no session. -/
theorem completeFlow_serverError_shortCircuit_witness :
    AuthServiceCompleteFlow [("error", "access_denied"), ("state", "s1")] none
        .transportFailure none (fun _ => "")
      = (.error (.serverReported "access_denied" ""), ⟨[], [], []⟩) :=
  completeFlow_serverError_shortCircuit _ _ _ _ _ (by decide)

/-- C6: when the token-exchange response has a status code of 300 or more,
the flow fails with the invalid-response error carrying that status code; the
trace shows the one exchange request and no token handed to the metadata
collaborator. -/
theorem completeFlow_badStatus (query : List (String × String)) (auth : authSession)
    (statusCode : Nat) (body : ExchangeBody) (appendError : Option String)
    (tokenID : ServiceToken → String)
    (hnoerr : queryGet query "error" = "")
    (hstate : queryGet query "state" = auth.state)
    (hcode : 300 ≤ statusCode) :
    AuthServiceCompleteFlow query (some auth) (.response statusCode body) appendError tokenID
      = (.error (.invalidResponseStatus statusCode),
         ⟨[(auth.baseURL ++ AuthHTTPPathTokenExchange,
            exchangeForm (queryGet query "code") auth.codeVerifier)], [], []⟩) := by
  simp only [AuthServiceCompleteFlow]
  rw [if_neg (fun hc => hc hnoerr), if_neg (fun h => h hstate.symm), if_pos hcode]

/-- Witness for C6 at status 500: the failure carries 500 and nothing is
persisted. -/
theorem completeFlow_badStatus_witness :
    AuthServiceCompleteFlow [("state", "s1"), ("code", "c1")] (some ⟨"s1", "v1", "https://b"⟩)
        (.response 500 (.parsed ⟨"tok1", [("push", "e")], ""⟩)) none (fun _ => "")
      = (.error (.invalidResponseStatus 500),
         ⟨[("https://b" ++ AuthHTTPPathTokenExchange, exchangeForm "c1" "v1")], [], []⟩) :=
  completeFlow_badStatus _ _ _ _ _ _ (by decide) (by decide) (by decide)

/-- C7: a decoded response whose accessToken is empty (and that reports no
server error) fails with the missing-access-token variant before any
persistence attempt; the check precedes the no-services check, so the empty
services mapping of the witness below still yields this variant. -/
theorem completeFlow_missingAccessToken (query : List (String × String)) (auth : authSession)
    (statusCode : Nat) (r : AuthExchangeResponse) (appendError : Option String)
    (tokenID : ServiceToken → String)
    (hnoerr : queryGet query "error" = "")
    (hstate : queryGet query "state" = auth.state)
    (hstatus : statusCode < 300)
    (hserr : r.error = "")
    (htok : r.accessToken = "") :
    AuthServiceCompleteFlow query (some auth) (.response statusCode (.parsed r)) appendError tokenID
      = (.error .invalidResponseMissingToken,
         ⟨[(auth.baseURL ++ AuthHTTPPathTokenExchange,
            exchangeForm (queryGet query "code") auth.codeVerifier)], [], []⟩) := by
  simp only [AuthServiceCompleteFlow]
  rw [if_neg (fun hc => hc hnoerr), if_neg (fun h => h hstate.symm),
    if_neg (Nat.not_le.mpr hstatus), if_neg (fun hc => hc hserr), if_pos htok]

/-- Witness for C7: accessToken and services both empty give the
missing-access-token variant, not the no-services one. -/
theorem completeFlow_missingAccessToken_witness :
    AuthServiceCompleteFlow [("state", "s1")] (some ⟨"s1", "v1", "https://b"⟩)
        (.response 200 (.parsed ⟨"", [], ""⟩)) none (fun _ => "")
      = (.error .invalidResponseMissingToken,
         ⟨[("https://b" ++ AuthHTTPPathTokenExchange, exchangeForm "" "v1")], [], []⟩) :=
  completeFlow_missingAccessToken _ _ _ _ _ _ (by decide) (by decide) (by decide) (by decide)
    (by decide)

/-- C4: a decoded response carrying token "tok1" and the single service
mapping push to https://push.example makes the flow succeed: exactly one
ServiceToken is handed to the metadata collaborator, with that token string,
that single supported service, expiration -1 and the session's baseURL as
authenticationURL, and the reply is that token's derived token ID. -/
theorem completeFlow_success_singleService (query : List (String × String)) (auth : authSession)
    (statusCode : Nat) (tokenID : ServiceToken → String)
    (hnoerr : queryGet query "error" = "")
    (hstate : queryGet query "state" = auth.state)
    (hstatus : statusCode < 300) :
    AuthServiceCompleteFlow query (some auth)
        (.response statusCode (.parsed ⟨"tok1", [("push", "https://push.example")], ""⟩))
        none tokenID
      = (.ok (tokenID ⟨"tok1", auth.baseURL, [⟨"push", "https://push.example"⟩], -1⟩),
         ⟨[(auth.baseURL ++ AuthHTTPPathTokenExchange,
            exchangeForm (queryGet query "code") auth.codeVerifier)],
          [⟨"tok1", auth.baseURL, [⟨"push", "https://push.example"⟩], -1⟩],
          ["https://push.example"]⟩) := by
  simp only [AuthServiceCompleteFlow]
  rw [if_neg (fun hc => hc hnoerr), if_neg (fun h => h hstate.symm),
    if_neg (Nat.not_le.mpr hstatus)]
  simp [ServicePushID]

/-- Witness for C4 at a concrete query, session and token-ID derivation. -/
theorem completeFlow_success_singleService_witness :
    AuthServiceCompleteFlow [("state", "s1"), ("code", "c1")] (some ⟨"s1", "v1", "https://b"⟩)
        (.response 200 (.parsed ⟨"tok1", [("push", "https://push.example")], ""⟩))
        none ServiceToken.token
      = (.ok "tok1",
         ⟨[("https://b" ++ AuthHTTPPathTokenExchange, exchangeForm "c1" "v1")],
          [⟨"tok1", "https://b", [⟨"push", "https://push.example"⟩], -1⟩],
          ["https://push.example"]⟩) :=
  completeFlow_success_singleService _ _ _ _ (by decide) (by decide) (by decide)

/-- C3 counterexample: the debug set-token entry point performs no validation
at all, so a caller-supplied payload with an empty bearer token and no
services is still handed to the metadata collaborator's append operation,
contradicting the claimed invariant for that path. -/
theorem debugSetToken_invariant_counterexample :
    ∃ t, t ∈ (DebugAuthServiceSetToken "" [] "https://auth.example" none).2
      ∧ t.token = "" ∧ t.supportedServices = [] :=
  ⟨⟨"", "https://auth.example", [], -1⟩, by decide, rfl, rfl⟩

/-- C3 amended: every ServiceToken handed to the metadata collaborator by the
production completeFlow path carries a non-empty bearer token and at least one
supported service; the debug entry point checks nothing and forwards whatever
the caller supplies. -/
theorem completeFlow_token_invariant (query : List (String × String)) (held : Option authSession)
    (exchangeResult : ExchangeHTTPResult) (appendError : Option String)
    (tokenID : ServiceToken → String) (t : ServiceToken)
    (ht : t ∈ (AuthServiceCompleteFlow query held exchangeResult appendError tokenID).2.appended) :
    t.token ≠ "" ∧ t.supportedServices ≠ [] := by
  simp only [AuthServiceCompleteFlow] at ht
  repeat' split at ht
  all_goals simp_all [List.length_eq_zero, List.map_eq_nil_iff]

/-- Witness for C3 amended, at a concrete successful flow handing one token
over. -/
theorem completeFlow_token_invariant_witness :
    (⟨"tok1", "https://b", [⟨"push", "e"⟩], -1⟩ : ServiceToken).token ≠ ""
    ∧ (⟨"tok1", "https://b", [⟨"push", "e"⟩], -1⟩ : ServiceToken).supportedServices ≠ [] :=
  completeFlow_token_invariant [("state", "s1")] (some ⟨"s1", "v1", "https://b"⟩)
    (.response 200 (.parsed ⟨"tok1", [("push", "e")], ""⟩)) none (fun _ => "") _ (by decide)

theorem newAuthSession_baseURL (b : String) (s v : Option (List Nat)) (a : authSession)
    (c : String) (h : newAuthSession b s v = .ok (a, c)) : a.baseURL = b := by
  unfold newAuthSession authSessionCodeVerifierAndChallenge at h
  cases s with
  | none => simp at h
  | some sb =>
    cases v with
    | none => simp at h
    | some vb =>
      simp only [Except.ok.injEq, Prod.mk.injEq] at h
      rw [← h.1]

theorem strStartsWith_authURLString (b s c : String) :
    strStartsWith (authURLString b s c) b = true := by
  unfold strStartsWith authURLString
  simp only [string_data_append, List.append_assoc]
  exact charsStartWith_append _ _

/-- C8 counterexample: for the accepted base URL "https://h//" the flow
succeeds but the stored session's baseURL is "https://h/", which still ends
with a slash: TrimSuffix removes only one trailing slash, so the claim that
the stored base URL has no trailing slash fails. -/
theorem authInitURL_trailingSlash_counterexample :
    (authInitURL "https://h//" (some [0]) (some [1]) none).1.isOk = true
    ∧ ((authInitURL "https://h//" (some [0]) (some [1]) none).2.map authSession.baseURL)
        = some "https://h/"
    ∧ strEndsWith "https://h/" "/" = true := by
  refine ⟨by decide, by decide, by decide⟩

/-- C8 amended: flow initialization fails with the invalid-URL error unless
the base URL parses with scheme http or https and a non-empty host, and on
success the stored session and the built URL use the base URL with a single
trailing slash (if any) removed. -/
theorem authInitURL_validation (baseURL : String) (ns nv : Option (List Nat))
    (held : Option authSession) :
    (isValidAuthBaseURL baseURL = false →
      authInitURL baseURL ns nv held = (.error .invalidURL, held))
    ∧ (∀ url auth, authInitURL baseURL ns nv held = (.ok url, some auth) →
        auth.baseURL = trimSuffix baseURL "/"
        ∧ strStartsWith url (trimSuffix baseURL "/") = true) := by
  constructor
  · intro h
    simp [authInitURL, h]
  · intro url auth h
    unfold authInitURL at h
    by_cases hv : isValidAuthBaseURL baseURL
    · rw [if_pos hv] at h
      dsimp only at h
      cases hns : newAuthSession (trimSuffix baseURL "/") ns nv with
      | error e => rw [hns] at h; simp at h
      | ok p =>
        rw [hns] at h
        simp only [Prod.mk.injEq, Except.ok.injEq, Option.some.injEq] at h
        obtain ⟨hurl, hauth⟩ := h
        subst hauth
        refine ⟨newAuthSession_baseURL _ _ _ _ _ hns, ?_⟩
        rw [← hurl]
        exact strStartsWith_authURLString _ _ _
    · rw [if_neg hv] at h
      simp at h

/-- Witness for C8 amended: a rejected scheme yields the invalid-URL error
and leaves the slot untouched. -/
theorem authInitURL_validation_witness :
    authInitURL "ftp://x" (some [0]) (some [1]) none = (.error .invalidURL, none) :=
  (authInitURL_validation "ftp://x" (some [0]) (some [1]) none).1 (by decide)

/-- C9 counterexample: for the accepted base URL "HTTPS://h" (net/url
lowercases the scheme during parsing, so validation sees "https"), flow
initialization succeeds and builds a URL whose scheme is https, yet the
reply's SecureURL flag is false, because strings.HasPrefix compares the URL
string case-sensitively against "https://". -/
theorem initFlow_secureURL_counterexample :
    ∃ r slot, AuthServiceInitFlow "HTTPS://h" (some [0]) (some [1]) none = (.ok r, slot)
      ∧ r.secureURL = false ∧ (goURLParse r.url).scheme = "https" := by
  refine ⟨_, _, rfl, by decide, by decide⟩

/-- C9 amended: the reply's SecureURL flag is true exactly when the
authorization URL string begins with the literal, lowercase "https://"; an
uppercase-scheme base URL yields a URL whose parsed scheme is https while the
flag stays false. -/
theorem initFlow_secureURL (authURL : String) (ns nv : Option (List Nat))
    (held slot : Option authSession) (r : AuthServiceInitFlowReply)
    (h : AuthServiceInitFlow authURL ns nv held = (.ok r, slot)) :
    r.secureURL = strStartsWith r.url "https://" := by
  unfold AuthServiceInitFlow at h
  cases hi : authInitURL authURL ns nv held with
  | mk res newSlot =>
    rw [hi] at h
    cases res with
    | error e => simp at h
    | ok u =>
      simp only [Prod.mk.injEq, Except.ok.injEq] at h
      rw [← h.1]

/-- Witness for C9 amended at a lowercase https base URL. -/
theorem initFlow_secureURL_witness :
    ∃ r slot, AuthServiceInitFlow "https://w.example" (some [0]) (some [1]) none = (.ok r, slot)
      ∧ r.secureURL = strStartsWith r.url "https://" := by
  refine ⟨_, _, rfl, initFlow_secureURL "https://w.example" (some [0]) (some [1]) none _ _ rfl⟩

theorem completeFlow_matchingState_not_wrongState (query : List (String × String))
    (auth : authSession) (exchangeResult : ExchangeHTTPResult) (appendError : Option String)
    (tokenID : ServiceToken → String)
    (hnoerr : queryGet query "error" = "")
    (hstate : queryGet query "state" = auth.state) :
    (AuthServiceCompleteFlow query (some auth) exchangeResult appendError tokenID).1
      ≠ .error .wrongState := by
  simp only [AuthServiceCompleteFlow]
  rw [if_neg (fun hc => hc hnoerr), if_neg (fun h => h hstate.symm)]
  repeat' split
  all_goals simp

/-- C10: when flow initialization fails (invalid base URL or failing random
source) the session slot is returned unchanged, and a later callback carrying
a previously held session's state still passes state validation against that
slot (it can fail later, but never with the wrong-state error). -/
theorem authInitURL_failure_preserves_session (baseURL : String) (ns nv : Option (List Nat))
    (held : Option authSession) (e : AuthError)
    (h : (authInitURL baseURL ns nv held).1 = .error e) :
    (authInitURL baseURL ns nv held).2 = held
    ∧ ∀ auth query exchangeResult appendError tokenID, held = some auth →
        queryGet query "error" = "" → queryGet query "state" = auth.state →
        (AuthServiceCompleteFlow query (authInitURL baseURL ns nv held).2
            exchangeResult appendError tokenID).1 ≠ .error .wrongState := by
  have hslot : (authInitURL baseURL ns nv held).2 = held := by
    unfold authInitURL at h ⊢
    by_cases hv : isValidAuthBaseURL baseURL
    · rw [if_pos hv] at h ⊢
      dsimp only at h ⊢
      cases hns : newAuthSession (trimSuffix baseURL "/") ns nv with
      | error e2 => rfl
      | ok p => rw [hns] at h; cases p; simp at h
    · rw [if_neg hv]
  refine ⟨hslot, ?_⟩
  intro auth query exchangeResult appendError tokenID hauth hnoerr hstate
  rw [hslot, hauth]
  exact completeFlow_matchingState_not_wrongState query auth exchangeResult appendError tokenID
    hnoerr hstate

/-- Witness for C10: a failed initialization over an invalid URL leaves a
previously parked session live, and a callback with its state is not
rejected as wrong-state. -/
theorem authInitURL_failure_preserves_session_witness :
    (authInitURL "bad" (some [0]) (some [1]) (some ⟨"s1", "v1", "https://b"⟩)).2
        = some ⟨"s1", "v1", "https://b"⟩
    ∧ (AuthServiceCompleteFlow [("state", "s1")]
          (authInitURL "bad" (some [0]) (some [1]) (some ⟨"s1", "v1", "https://b"⟩)).2
          .transportFailure none (fun _ => "")).1 ≠ .error .wrongState := by
  have H := authInitURL_failure_preserves_session "bad" (some [0]) (some [1])
    (some ⟨"s1", "v1", "https://b"⟩) .invalidURL (by rfl)
  exact ⟨H.1, H.2 _ [("state", "s1")] .transportFailure none (fun _ => "") rfl (by decide) (by decide)⟩
